import Mathlib

/-!
Verification of the `read_waveplus.py` Airthings Wave Plus reader.

This file gives a shallow embedding of the script's pure logic in Lean 4 and
proves the specification claims about it:

* the byte decoder (`Sensors.set`, `conv2radon`, `unpackRecord`);
* the advertisement serial-number parser (`parse_serial_number`);
* the device-session state machine (`WavePlus.connect` / `WavePlus.disconnect`),
  with the BLE transport abstracted as a scan oracle;
* the module-level CLI argument guards (`parseArgs`).

Modelling conventions: Python floats are modelled by exact rationals (every
division performed by the script is by 2, 50 or 100, and every value the
claims mention is exactly representable); Python exceptions (`IndexError`
from out-of-range indexing, `struct.error`) and `sys.exit(1)` are modelled
with `Except`; strings are modelled as ASCII strings, on which Python's
`str.isdigit`, `str.lower` and `int` agree with the Lean models used here.
-/

namespace ReadWaveplus

/-! ## Sensor values and the radon conversion -/

/-- A decoded sensor value: either a number (Python float/int, modelled as an
exact rational) or the distinguished nonnumeric string sentinel `"N/A"`
returned by `conv2radon` for out-of-range raw radon values. -/
inductive SensorValue where
  | num (q : ℚ)
  | na
  deriving DecidableEq

/-- `Sensors.conv2radon` from the source: returns the raw value itself when
`0 <= radon_raw <= 16383`, and the string `"N/A"` otherwise.  The argument is
an integer so that the lower bound of the guard is meaningful. -/
def conv2radon (radon_raw : ℤ) : SensorValue :=
  if 0 ≤ radon_raw ∧ radon_raw ≤ 16383 then .num (radon_raw : ℚ) else .na

/-! ## The raw record and the `Sensors` class -/

/-- The result of `struct.unpack('<BBBBHHHHHHHH', rawdata)`: four single bytes
(`version`, `b1`, `b2`, `b3`, i.e. tuple indices 0-3) followed by eight
unsigned 16-bit little-endian words (`w0`-`w7`, tuple indices 4-11). -/
structure RawData where
  version : ℕ
  b1 : ℕ
  b2 : ℕ
  b3 : ℕ
  w0 : ℕ
  w1 : ℕ
  w2 : ℕ
  w3 : ℕ
  w4 : ℕ
  w5 : ℕ
  w6 : ℕ
  w7 : ℕ
  deriving DecidableEq

/-! The `SensorIndex` IntEnum from the source. -/

namespace SensorIndex

def HUMIDITY : ℕ := 0
def RADON_SHORT_TERM_AVG : ℕ := 1
def RADON_LONG_TERM_AVG : ℕ := 2
def TEMPERATURE : ℕ := 3
def REL_ATM_PRESSURE : ℕ := 4
def CO2_LVL : ℕ := 5
def VOC_LVL : ℕ := 6

end SensorIndex

def SENSOR_UNITS : List String :=
  ["%rH", "Bq/m3", "Bq/m3", "°C", "hPa", "ppm", "ppb"]

def SENSOR_HEADERS : List String :=
  ["Humidity", "Radon ST avg", "Radon LT avg", "Temperature", "Pressure",
   "CO2 level", "VOC level"]

/-- The mutable state of a `Sensors` object: `sensor_version` (initially
`None`) and the `sensor_data` list (initially seven `None` entries). -/
structure Sensors where
  sensor_version : Option ℕ
  sensor_data : List (Option SensorValue)
  deriving DecidableEq

/-- `Sensors.__init__`. -/
def Sensors.init : Sensors :=
  { sensor_version := none, sensor_data := List.replicate 7 none }

/-- The failure mode of `Sensors.set`: for any version byte other than `1`
the script prints `ERROR: Unknown sensor version.` and calls `sys.exit(1)`,
producing no sensor readings. -/
inductive SensorsError where
  | unsupportedSensorVersion
  deriving DecidableEq

/-- `Sensors.set` from the source.  On `rawData[0] == 1` it assigns, by list
element assignment into the existing `sensor_data` list:
humidity `rawData[1] / 2.0` (the second header byte, halved), radon short/long
term `conv2radon(rawData[4])` / `conv2radon(rawData[5])` (words 0 and 1),
temperature `rawData[6] / 100.0` (word 2), pressure `rawData[7] / 50.0`
(word 3), CO2 `rawData[8]` (word 4) and VOC `rawData[9]` (word 5).
Any other version byte exits the process (modelled as `Except.error`). -/
def Sensors.set (s : Sensors) (rawData : RawData) : Except SensorsError Sensors :=
  if rawData.version = 1 then
    let d0 := s.sensor_data.set SensorIndex.HUMIDITY
      (some (.num ((rawData.b1 : ℚ) / 2)))
    let d1 := d0.set SensorIndex.RADON_SHORT_TERM_AVG
      (some (conv2radon (rawData.w0 : ℤ)))
    let d2 := d1.set SensorIndex.RADON_LONG_TERM_AVG
      (some (conv2radon (rawData.w1 : ℤ)))
    let d3 := d2.set SensorIndex.TEMPERATURE
      (some (.num ((rawData.w2 : ℚ) / 100)))
    let d4 := d3.set SensorIndex.REL_ATM_PRESSURE
      (some (.num ((rawData.w3 : ℚ) / 50)))
    let d5 := d4.set SensorIndex.CO2_LVL (some (.num (rawData.w4 : ℚ)))
    let d6 := d5.set SensorIndex.VOC_LVL (some (.num (rawData.w5 : ℚ)))
    .ok { sensor_version := some rawData.version, sensor_data := d6 }
  else
    .error .unsupportedSensorVersion

/-- `Sensors.get_value`. -/
def Sensors.get_value (s : Sensors) (sensor_index : ℕ) : Option SensorValue :=
  s.sensor_data.getD sensor_index none

/-- `Sensors.get_unit`. -/
def Sensors.get_unit (sensor_index : ℕ) : String :=
  SENSOR_UNITS.getD sensor_index ""

/-! ## Unpacking the 20-byte characteristic record -/

/-- One unsigned 16-bit little-endian word. -/
def le16 (lo hi : ℕ) : ℕ := lo + 256 * hi

/-- `struct.unpack('<BBBBHHHHHHHH', rawdata)`: requires exactly 20 bytes,
yields the four header bytes and the eight little-endian words. -/
def unpackRecord (bytes : List ℕ) : Option RawData :=
  if bytes.length = 20 ∧ bytes.all (· < 256) then
    some { version := bytes.getD 0 0,
           b1 := bytes.getD 1 0,
           b2 := bytes.getD 2 0,
           b3 := bytes.getD 3 0,
           w0 := le16 (bytes.getD 4 0) (bytes.getD 5 0),
           w1 := le16 (bytes.getD 6 0) (bytes.getD 7 0),
           w2 := le16 (bytes.getD 8 0) (bytes.getD 9 0),
           w3 := le16 (bytes.getD 10 0) (bytes.getD 11 0),
           w4 := le16 (bytes.getD 12 0) (bytes.getD 13 0),
           w5 := le16 (bytes.getD 14 0) (bytes.getD 15 0),
           w6 := le16 (bytes.getD 16 0) (bytes.getD 17 0),
           w7 := le16 (bytes.getD 18 0) (bytes.getD 19 0) }
  else none

inductive DecodeError where
  | structError
  | unsupportedSensorVersion
  deriving DecidableEq

/-- Decoding a raw byte record into a `Sensors` state `s` (the body of
`WavePlus.read` after the characteristic read): unpack then `Sensors.set`. -/
def decodeFrom (s : Sensors) (bytes : List ℕ) : Except DecodeError Sensors :=
  match unpackRecord bytes with
  | none => .error .structError
  | some r =>
    match s.set r with
    | .ok s2 => .ok s2
    | .error _ => .error .unsupportedSensorVersion

/-- `WavePlus.read`'s decoding path: a fresh `Sensors()` object, then `set`. -/
def readDecode (bytes : List ℕ) : Except DecodeError Sensors :=
  decodeFrom Sensors.init bytes

/-! ## The advertisement serial-number parser -/

/-- Failure mode of `parse_serial_number`: Python raises `IndexError` when a
`bytearray` is indexed out of range. -/
inductive ParseErr where
  | indexOutOfRange
  deriving DecidableEq

/-- Result of `parse_serial_number`: either the string `'Unknown'` or an
integer serial number. -/
inductive ParseResult where
  | unknown
  | serial (sn : ℕ)
  deriving DecidableEq

instance {ε α : Type} [DecidableEq ε] [DecidableEq α] :
    DecidableEq (Except ε α) := fun a b =>
  match a, b with
  | .error e1, .error e2 =>
    if h : e1 = e2 then .isTrue (by rw [h]) else .isFalse (by simp [h])
  | .error _, .ok _ => .isFalse (by simp)
  | .ok _, .error _ => .isFalse (by simp)
  | .ok a1, .ok a2 =>
    if h : a1 = a2 then .isTrue (by rw [h]) else .isFalse (by simp [h])

/-- `bytearray` indexing: the byte at position `i`, or `IndexError`. -/
def byteAt (bs : List ℕ) (i : ℕ) : Except ParseErr ℕ :=
  match bs[i]? with
  | some b => .ok b
  | none => .error .indexOutOfRange

/-- `parse_serial_number` from the source.  The argument models
`dev.getValueText(255)` after hex decoding: `none` stands for an absent
payload (Python `None`) as well as for the literal string `'None'` (both are
mapped to `'Unknown'` by the same guard), and `some bs` stands for a hex
string whose decoded bytes are `bs`.  The byte accesses happen in source
order: index 1, 0, then 2, 3, 4, 5. -/
def parse_serial_number (manu_data : Option (List ℕ)) : Except ParseErr ParseResult :=
  match manu_data with
  | none => .ok .unknown
  | some bs => do
    let b1 ← byteAt bs 1
    let b0 ← byteAt bs 0
    if ((b1 <<< 8) ||| b0) ≠ 0x0334 then
      .ok .unknown
    else do
      let b2 ← byteAt bs 2
      let b3 ← byteAt bs 3
      let b4 ← byteAt bs 4
      let b5 ← byteAt bs 5
      .ok (.serial (((b2 ||| (b3 <<< 8)) ||| (b4 <<< 16)) ||| (b5 <<< 24)))

/-- Little-endian combination of a list of bytes into one unsigned integer
(the specification-side reading "bytes combined little-endian"). -/
def leBytes (l : List ℕ) : ℕ :=
  l.foldr (fun b acc => b + 256 * acc) 0

/-! ## The device session (`WavePlus` class) -/

/-- One device seen during a scan iteration: its BLE address (`dev.addr`) and
its manufacturer data (`dev.getValueText(255)`, already hex-decoded as in
`parse_serial_number`). -/
structure Device where
  addr : String
  manuData : Option (List ℕ)

/-- The inner `for dev in devices` loop of `WavePlus.connect`: return the
address of the first device whose parsed serial number equals the target, or
`none`; a parse exception propagates. -/
def scanIteration (target : ℕ) : List Device → Except ParseErr (Option String)
  | [] => .ok none
  | d :: rest =>
    match parse_serial_number d.manuData with
    | .error e => .error e
    | .ok r =>
      if r = .serial target then .ok (some d.addr) else scanIteration target rest

/-- The discovery `while` loop of `WavePlus.connect`.  `scans i` is the list
of devices returned by `scanner.scan(0.1)` on iteration `i` (the BLE
transport as an oracle); the second component counts how many scan iterations
were performed.  Called with fuel `50 - searchCount`. -/
def discoverLoop (scans : ℕ → List Device) (target : ℕ) :
    ℕ → ℕ → Except ParseErr (Option String) × ℕ
  | _, 0 => (.ok none, 0)
  | i, fuel + 1 =>
    match scanIteration target (scans i) with
    | .error e => (.error e, 1)
    | .ok (some a) => (.ok (some a), 1)
    | .ok none =>
      let r := discoverLoop scans target (i + 1) fuel
      (r.1, r.2 + 1)

/-- The mutable state of a `WavePlus` object.  `peripheral` records the
address the open `Peripheral` handle was created from; `curr_val_char`
models the resolved characteristic handle. -/
structure WavePlus where
  serial_number : ℕ
  mac_address : Option String
  peripheral : Option String
  curr_val_char : Option Unit
  deriving DecidableEq

/-- `WavePlus.__init__`. -/
def WavePlus.init (serial_number : ℕ) : WavePlus :=
  { serial_number := serial_number, mac_address := none,
    peripheral := none, curr_val_char := none }

/-- Failure modes of `WavePlus.connect`: an `IndexError` escaping
`parse_serial_number`, or the `ERROR: Could not find device.` + `sys.exit(1)`
path after the scan budget is exhausted. -/
inductive ConnectError where
  | parseFailure (e : ParseErr)
  | deviceNotFound
  deriving DecidableEq

/-- The tail of `WavePlus.connect` once `mac_address` is `a`: open the
`Peripheral` if not already open, resolve the characteristic if not already
resolved.  The boolean reports whether a `Peripheral(..)` connection attempt
was made. -/
def connectPhase (w : WavePlus) (a : String) : WavePlus × Bool :=
  match w.peripheral with
  | some p =>
    ({ w with mac_address := some a, peripheral := some p,
              curr_val_char := some () }, false)
  | none =>
    ({ w with mac_address := some a, peripheral := some a,
              curr_val_char := some () }, true)

/-- `WavePlus.connect`, with the BLE transport abstracted as the scan oracle
`scans`.  Returns the result (new state or error), the number of scan
iterations performed, and whether a connection attempt was made. -/
def WavePlus.connect (scans : ℕ → List Device) (w : WavePlus) :
    Except ConnectError WavePlus × ℕ × Bool :=
  match w.mac_address with
  | some a =>
    let p := connectPhase w a
    (.ok p.1, 0, p.2)
  | none =>
    match discoverLoop scans w.serial_number 0 50 with
    | (.error e, n) => (.error (.parseFailure e), n, false)
    | (.ok none, n) => (.error .deviceNotFound, n, false)
    | (.ok (some a), n) =>
      let p := connectPhase { w with mac_address := some a } a
      (.ok p.1, n, p.2)

/-- `WavePlus.disconnect`: if no peripheral is open, return immediately
(leaving the state untouched); otherwise close it and clear both the
peripheral and the characteristic handle.  `mac_address` is never touched. -/
def WavePlus.disconnect (w : WavePlus) : WavePlus :=
  match w.peripheral with
  | none => w
  | some _ => { w with peripheral := none, curr_val_char := none }

/-- The session-lifecycle invariant of the spec state machine
(UNRESOLVED / RESOLVED / CONNECTED): a characteristic handle is held only
while a peripheral connection is open. -/
def sessionInv (w : WavePlus) : Prop :=
  w.curr_val_char.isSome → w.peripheral.isSome

/-! ## The module-level CLI argument guards -/

/-- Python `str.isdigit` restricted to ASCII strings: nonempty and all
characters decimal digits. -/
def pyIsDigit (s : String) : Bool :=
  !s.isEmpty && s.toList.all Char.isDigit

/-- Python `int(..)` on a string of ASCII decimal digits. -/
def pyInt (s : String) : ℕ :=
  s.toList.foldl (fun a c => 10 * a + (c.toNat - 48)) 0

/-- Python `str.lower` restricted to ASCII strings. -/
def pyLower (s : String) : String :=
  String.mk (s.toList.map Char.toLower)

/-- A `sys.exit` triggered by an argument guard, with the exit code and the
first line of the printed usage message. -/
structure CliExit where
  code : ℕ
  message : String
  deriving DecidableEq

/-- The module-level configuration derived from the arguments. -/
structure Config where
  SERIAL_NUMBER : ℕ
  SAMPLE_PERIOD : ℕ
  MODE : String
  deriving DecidableEq

/-- The module-level guard sequence of the script, over
`argv = sys.argv` (so `argv[0]` is the program name): missing arguments, the
SN format guard, the SAMPLE-PERIOD guard, the MODE default and guard. -/
def parseArgs (argv : List String) : Except CliExit Config :=
  if argv.length < 3 then
    .error { code := 1, message := "ERROR: Missing input argument SN or SAMPLE-PERIOD." }
  else if ¬(pyIsDigit (argv.getD 1 "") = true ∧ (argv.getD 1 "").length = 10) then
    .error { code := 1, message := "ERROR: Invalid SN format." }
  else if pyIsDigit (argv.getD 2 "") ≠ true ∨ (pyInt (argv.getD 2 "") : ℤ) < 0 then
    .error { code := 1,
             message := "ERROR: Invalid SAMPLE-PERIOD. Must be a numerical value larger than zero." }
  else
    let MODE := if argv.length > 3 then pyLower (argv.getD 3 "") else "terminal"
    if MODE ≠ "pipe" ∧ MODE ≠ "terminal" then
      .error { code := 1, message := "ERROR: Invalid piping method." }
    else
      .ok { SERIAL_NUMBER := pyInt (argv.getD 1 ""),
            SAMPLE_PERIOD := pyInt (argv.getD 2 ""),
            MODE := MODE }

/-- Observation on a guard result: the script rejected the arguments with
exit code 1 and printed an `ERROR:` line (followed by the usage text). -/
def rejectsWithUsage : Except CliExit Config → Bool
  | .error e => e.code == 1 && (e.message.toList.take 6 == "ERROR:".toList)
  | .ok _ => false

/-- The record of end-to-end scenario 1: header bytes `01 00 00 00` followed
by the eight little-endian words `[80, 0, 0, 10, 20, 1000, 40, 500]`. -/
def scenario1Bytes : List ℕ :=
  [1, 0, 0, 0, 80, 0, 0, 0, 0, 0, 10, 0, 20, 0, 232, 3, 40, 0, 244, 1]

/-- The raw record of end-to-end scenario 2: version byte `02`. -/
def version2Record : RawData :=
  { version := 2, b1 := 0, b2 := 0, b3 := 0, w0 := 0, w1 := 0, w2 := 0,
    w3 := 0, w4 := 0, w5 := 0, w6 := 0, w7 := 0 }

/-! ## Helper lemmas -/

/-- Disjoint or of a shifted value and a small value is addition. -/
lemma shl_or_eq (i a x : ℕ) (hx : x < 2 ^ i) :
    (a <<< i) ||| x = 2 ^ i * a + x := by
  rw [Nat.shiftLeft_eq, Nat.mul_comm]
  exact (Nat.mul_add_lt_is_or hx a).symm

lemma or_shl_eq (i a x : ℕ) (hx : x < 2 ^ i) :
    x ||| (a <<< i) = 2 ^ i * a + x := by
  rw [Nat.lor_comm]
  exact shl_or_eq i a x hx

/-- The company-identifier expression of `parse_serial_number`, read as
arithmetic: `(b1 << 8) | b0` is the little-endian 16-bit value. -/
lemma company_eq (b0 b1 : ℕ) (h0 : b0 < 256) :
    (b1 <<< 8) ||| b0 = 256 * b1 + b0 := by
  have h := shl_or_eq 8 b1 b0 (lt_of_lt_of_eq h0 (by norm_num))
  simpa using h

/-- The serial-number expression of `parse_serial_number`, read as
arithmetic: or-ing the four shifted bytes is little-endian combination. -/
lemma serial_eq (b2 b3 b4 b5 : ℕ) (h2 : b2 < 256) (h3 : b3 < 256)
    (h4 : b4 < 256) (_h5 : b5 < 256) :
    ((b2 ||| (b3 <<< 8)) ||| (b4 <<< 16)) ||| (b5 <<< 24)
      = b2 + 256 * b3 + 65536 * b4 + 16777216 * b5 := by
  have e1 : b2 ||| (b3 <<< 8) = 2 ^ 8 * b3 + b2 :=
    or_shl_eq 8 b3 b2 (lt_of_lt_of_eq h2 (by norm_num))
  have lt1 : 2 ^ 8 * b3 + b2 < 2 ^ 16 := by norm_num; omega
  have e2 : (2 ^ 8 * b3 + b2) ||| (b4 <<< 16) = 2 ^ 16 * b4 + (2 ^ 8 * b3 + b2) :=
    or_shl_eq 16 b4 _ lt1
  have lt2 : 2 ^ 16 * b4 + (2 ^ 8 * b3 + b2) < 2 ^ 24 := by norm_num; omega
  have e3 : (2 ^ 16 * b4 + (2 ^ 8 * b3 + b2)) ||| (b5 <<< 24)
      = 2 ^ 24 * b5 + (2 ^ 16 * b4 + (2 ^ 8 * b3 + b2)) :=
    or_shl_eq 24 b5 _ lt2
  rw [e1, e2, e3]
  norm_num
  omega

/-- Assigning all seven positions of a seven-element list replaces it. -/
lemma setChain7 (l : List (Option SensorValue)) (h : l.length = 7)
    (v0 v1 v2 v3 v4 v5 v6 : Option SensorValue) :
    ((((((l.set 0 v0).set 1 v1).set 2 v2).set 3 v3).set 4 v4).set 5 v5).set 6 v6
      = [v0, v1, v2, v3, v4, v5, v6] := by
  rcases l with _ | ⟨a0, _ | ⟨a1, _ | ⟨a2, _ | ⟨a3, _ | ⟨a4, _ | ⟨a5, _ | ⟨a6, rest⟩⟩⟩⟩⟩⟩⟩ <;>
    simp_all [List.set]

/-- `Sensors.set` overwrites every entry of a well-formed (seven-element)
`sensor_data` list, so its result is independent of the prior object state. -/
lemma set_ext (s1 s2 : Sensors) (r : RawData)
    (h1 : s1.sensor_data.length = 7) (h2 : s2.sensor_data.length = 7) :
    s1.set r = s2.set r := by
  by_cases hv : r.version = 1
  · simp only [Sensors.set, hv, if_pos,
      SensorIndex.HUMIDITY, SensorIndex.RADON_SHORT_TERM_AVG,
      SensorIndex.RADON_LONG_TERM_AVG, SensorIndex.TEMPERATURE,
      SensorIndex.REL_ATM_PRESSURE, SensorIndex.CO2_LVL, SensorIndex.VOC_LVL]
    rw [setChain7 _ h1, setChain7 _ h2]
  · simp [Sensors.set, hv]

/-! ## The claims -/

/-- C1, counterexample: the claim asserts that decoding the scenario-1 record
(header `01 00 00 00`, words `[80, 0, 0, 10, 20, 1000, 40, 500]`) yields
Humidity = 40.0 %rH, with humidity taken from word 0.  In the code humidity
is `rawData[1] / 2.0`, the second HEADER byte (here 0), so the decoded
humidity is 0, not 40. -/
theorem claim_C1_counterexample :
    (readDecode scenario1Bytes).map
        (fun s => s.get_value SensorIndex.HUMIDITY)
      ≠ .ok (some (.num 40)) := by
  simp [readDecode, decodeFrom, unpackRecord, scenario1Bytes, Sensors.set,
        Sensors.init, Sensors.get_value, conv2radon, le16,
        SensorIndex.HUMIDITY, SensorIndex.RADON_SHORT_TERM_AVG,
        SensorIndex.RADON_LONG_TERM_AVG, SensorIndex.TEMPERATURE,
        SensorIndex.REL_ATM_PRESSURE, SensorIndex.CO2_LVL,
        SensorIndex.VOC_LVL, List.set, Except.map]

/-- C1, amended: decoding the scenario-1 record yields
Humidity = 0.0 %rH (header byte 1, halved), Radon ST = 80 Bq/m3 (word 0),
Radon LT = 0 Bq/m3 (word 1), Temperature = 0.0 °C (word 2 / 100),
Pressure = 0.2 hPa (word 3 / 50), CO2 = 20 ppm (word 4) and
VOC = 1000 ppb (word 5): the decoder maps humidity from header byte 1
(halved), radon short/long from words 0/1, temperature from word 2 / 100,
pressure from word 3 / 50, CO2 from word 4 and VOC from word 5. -/
theorem claim_C1_amended :
    readDecode scenario1Bytes =
      .ok { sensor_version := some 1,
            sensor_data := [some (.num 0), some (.num 80), some (.num 0),
                            some (.num 0), some (.num (1 / 5)),
                            some (.num 20), some (.num 1000)] } := by
  simp [readDecode, decodeFrom, unpackRecord, scenario1Bytes, Sensors.set,
        Sensors.init, conv2radon, le16,
        SensorIndex.HUMIDITY, SensorIndex.RADON_SHORT_TERM_AVG,
        SensorIndex.RADON_LONG_TERM_AVG, SensorIndex.TEMPERATURE,
        SensorIndex.REL_ATM_PRESSURE, SensorIndex.CO2_LVL,
        SensorIndex.VOC_LVL, List.set]
  norm_num

/-- C2: parsing an advertisement payload.  An absent payload (or the literal
`None` string, both modelled by `none`) parses to `Unknown`; a payload whose
first two bytes, read little-endian as a 16-bit company identifier, differ
from `0x0334` parses to `Unknown`; and a payload whose identifier matches
parses to the serial number formed by combining bytes 2-5 little-endian.
The function is pure (a Lean function of the payload alone).  The length
bounds make the bytes the claim reads well-defined. -/
theorem claim_C2 :
    parse_serial_number none = .ok .unknown
    ∧ (∀ bs : List ℕ, 2 ≤ bs.length → (∀ b ∈ bs, b < 256) →
        256 * bs.getD 1 0 + bs.getD 0 0 ≠ 0x0334 →
        parse_serial_number (some bs) = .ok .unknown)
    ∧ (∀ bs : List ℕ, 6 ≤ bs.length → (∀ b ∈ bs, b < 256) →
        256 * bs.getD 1 0 + bs.getD 0 0 = 0x0334 →
        parse_serial_number (some bs)
          = .ok (.serial (leBytes [bs.getD 2 0, bs.getD 3 0,
                                   bs.getD 4 0, bs.getD 5 0]))) := by
  refine ⟨rfl, ?_, ?_⟩
  · intro bs hlen hbytes hne
    rcases bs with _ | ⟨b0, _ | ⟨b1, rest⟩⟩
    · simp at hlen
    · simp at hlen
    · have hb0 : b0 < 256 := hbytes b0 (by simp)
      have e := company_eq b0 b1 hb0
      simp only [List.getD_cons_succ, List.getD_cons_zero] at hne
      simp [parse_serial_number, byteAt, Except.instMonad, Except.bind, e, hne]
  · intro bs hlen hbytes heq
    rcases bs with _ | ⟨b0, _ | ⟨b1, _ | ⟨b2, _ | ⟨b3, _ | ⟨b4, _ | ⟨b5, rest⟩⟩⟩⟩⟩⟩ <;>
      try simp at hlen
    have hb0 : b0 < 256 := hbytes b0 (by simp)
    have hb2 : b2 < 256 := hbytes b2 (by simp)
    have hb3 : b3 < 256 := hbytes b3 (by simp)
    have hb4 : b4 < 256 := hbytes b4 (by simp)
    have hb5 : b5 < 256 := hbytes b5 (by simp)
    have e := company_eq b0 b1 hb0
    have es := serial_eq b2 b3 b4 b5 hb2 hb3 hb4 hb5
    simp only [List.getD_cons_succ, List.getD_cons_zero] at heq
    simp [parse_serial_number, byteAt, Except.instMonad, Except.bind, e, heq,
          es, leBytes]
    omega

/-- Witness for C2: an absent payload, a two-byte payload with the wrong
company identifier, and a six-byte matching payload whose serial number is
`0x12345678`. -/
theorem claim_C2_witness :
    parse_serial_number none = .ok .unknown
    ∧ parse_serial_number (some [0, 0]) = .ok .unknown
    ∧ parse_serial_number (some [52, 3, 120, 86, 52, 18])
        = .ok (.serial 305419896) := by
  refine ⟨claim_C2.1,
          claim_C2.2.1 [0, 0] (by norm_num) (by decide) (by norm_num), ?_⟩
  have h := claim_C2.2.2 [52, 3, 120, 86, 52, 18]
    (by norm_num) (by decide) (by norm_num)
  exact h.trans (by decide)

/-- C9: `parse_serial_number` is partial on short payloads: a one-byte
payload raises `IndexError` (reading `manu_data[1]`), and a four-byte payload
whose company identifier matches raises `IndexError` (reading
`manu_data[4]`), instead of returning `Unknown` or a serial number. -/
theorem claim_C9 :
    parse_serial_number (some [18]) = .error .indexOutOfRange
    ∧ parse_serial_number (some [52, 3, 0, 0]) = .error .indexOutOfRange := by
  exact ⟨by decide, by decide⟩

/-- C8: for every valid 20-byte version-1 record, decoding is deterministic
and pure: the decoded `SensorReading` sequence depends only on the record
bytes, not on the prior state of the (well-formed, seven-slot) `Sensors`
object the decoder writes into. -/
theorem claim_C8 (s1 s2 : Sensors) (bytes1 bytes2 : List ℕ)
    (h1 : s1.sensor_data.length = 7) (h2 : s2.sensor_data.length = 7)
    (hb : bytes1 = bytes2) (_hlen : bytes1.length = 20)
    (_hver : bytes1.getD 0 0 = 1) :
    decodeFrom s1 bytes1 = decodeFrom s2 bytes2 := by
  subst hb
  unfold decodeFrom
  cases hu : unpackRecord bytes1 with
  | none => rfl
  | some r =>
    dsimp only
    rw [set_ext s1 s2 r h1 h2]

/-- Witness for C8: the scenario-1 record decodes identically from a fresh
`Sensors` object and from one whose slots were already populated. -/
theorem claim_C8_witness :
    decodeFrom Sensors.init scenario1Bytes
      = decodeFrom { sensor_version := some 9,
                     sensor_data := List.replicate 7 (some .na) }
          scenario1Bytes :=
  claim_C8 _ _ _ _ (by simp [Sensors.init]) (by simp) rfl (by decide) (by decide)

/-- C3: the radon conversion returns the raw value itself for every raw value
in `[0, 16383]`, and the distinguished `N/A` sentinel — never a numeric
value — for every raw value outside that range; the sentinel is
distinguishable from the numeric zero. -/
theorem claim_C3 :
    (∀ v : ℤ, 0 ≤ v → v ≤ 16383 → conv2radon v = .num (v : ℚ))
    ∧ (∀ v : ℤ, ¬(0 ≤ v ∧ v ≤ 16383) →
        conv2radon v = .na ∧ ∀ q : ℚ, conv2radon v ≠ .num q)
    ∧ SensorValue.na ≠ .num 0 := by
  refine ⟨fun v h1 h2 => by simp [conv2radon, h1, h2], fun v h => ?_, by simp⟩
  constructor
  · simp [conv2radon, h]
  · intro q
    simp [conv2radon, h]

/-- Witness for C3: an in-range and two out-of-range raw values. -/
theorem claim_C3_witness :
    conv2radon 5 = .num 5 ∧ conv2radon 16384 = .na ∧ conv2radon (-1) = .na := by
  refine ⟨claim_C3.1 5 (by norm_num) (by norm_num),
          (claim_C3.2.1 16384 (by norm_num)).1,
          (claim_C3.2.1 (-1) (by norm_num)).1⟩

/-- A device seen by the scanner does not stop the discovery loop: its
manufacturer data parses cleanly (no exception) to something other than the
target serial number. -/
def devOk (target : ℕ) (d : Device) : Prop :=
  ∃ r, parse_serial_number d.manuData = .ok r ∧ r ≠ .serial target

lemma scanIteration_none (target : ℕ) (devs : List Device)
    (h : ∀ d ∈ devs, devOk target d) :
    scanIteration target devs = .ok none := by
  induction devs with
  | nil => rfl
  | cons d rest ih =>
    obtain ⟨r, hr, hne⟩ := h d (by simp)
    have htail := ih fun d2 hd2 => h d2 (List.mem_cons_of_mem _ hd2)
    simpa [scanIteration, hr, hne] using htail

lemma scanIteration_found (target : ℕ) (pre : List Device) (d : Device)
    (post : List Device) (hpre : ∀ d2 ∈ pre, devOk target d2)
    (hd : parse_serial_number d.manuData = .ok (.serial target)) :
    scanIteration target (pre ++ d :: post) = .ok (some d.addr) := by
  induction pre with
  | nil => simp [scanIteration, hd]
  | cons p rest ih =>
    obtain ⟨r, hr, hne⟩ := hpre p (by simp)
    have htail := ih fun d2 hd2 => hpre d2 (List.mem_cons_of_mem _ hd2)
    simpa [scanIteration, hr, hne] using htail

lemma discoverLoop_exhaust (scans : ℕ → List Device) (target : ℕ) :
    ∀ fuel i, (∀ k, i ≤ k → k < i + fuel → ∀ d ∈ scans k, devOk target d) →
      discoverLoop scans target i fuel = (.ok none, fuel) := by
  intro fuel
  induction fuel with
  | zero => intro i _; rfl
  | succ f ih =>
    intro i h
    have h0 : scanIteration target (scans i) = .ok none :=
      scanIteration_none _ _ (h i le_rfl (by omega))
    have htail := ih (i + 1) fun k hk1 hk2 => h k (by omega) (by omega)
    simp [discoverLoop, h0, htail]

lemma discoverLoop_found (scans : ℕ → List Device) (target : ℕ) (a : String) :
    ∀ fuel i j, i ≤ j → j < i + fuel →
      (∀ k, i ≤ k → k < j → ∀ d ∈ scans k, devOk target d) →
      scanIteration target (scans j) = .ok (some a) →
      discoverLoop scans target i fuel = (.ok (some a), j - i + 1) := by
  intro fuel
  induction fuel with
  | zero => intro i j h1 h2 _ _; omega
  | succ f ih =>
    intro i j hij hlt hpre hj
    by_cases hji : j = i
    · subst hji
      simp [discoverLoop, hj]
    · have hi : scanIteration target (scans i) = .ok none :=
        scanIteration_none _ _ (hpre i le_rfl (by omega))
      have htail := ih (i + 1) j (by omega) (by omega)
        (fun k hk1 hk2 => hpre k (by omega) hk2) hj
      simp [discoverLoop, hi, htail]
      omega

lemma connectPhase_mac (w : WavePlus) (a : String) :
    (connectPhase w a).1.mac_address = some a := by
  cases hp : w.peripheral <;> simp [connectPhase, hp]

/-- C5: with the session unresolved, `connect` scans in at most 50 fixed
windows.  If every device seen in all 50 windows parses to a non-matching
serial number, `connect` performs exactly 50 scan iterations and fails with
the device-not-found error, making no connection attempt.  If iteration
`j < 50` is the first to contain a matching device `d` (everything seen
before `d` is non-matching), `connect` stops after exactly `j + 1` scan
iterations — short-circuiting the remaining windows — and resolves the
address to `d.addr`. -/
theorem claim_C5 (scans : ℕ → List Device) (w : WavePlus)
    (hmac : w.mac_address = none) :
    ((∀ i, i < 50 → ∀ d ∈ scans i, devOk w.serial_number d) →
      w.connect scans = (.error .deviceNotFound, 50, false))
    ∧ (∀ j, j < 50 →
        (∀ i, i < j → ∀ d ∈ scans i, devOk w.serial_number d) →
        ∀ pre d post, scans j = pre ++ d :: post →
        (∀ d2 ∈ pre, devOk w.serial_number d2) →
        parse_serial_number d.manuData = .ok (.serial w.serial_number) →
        (w.connect scans).2.1 = j + 1 ∧
        ∃ w2, (w.connect scans).1 = .ok w2 ∧ w2.mac_address = some d.addr) := by
  constructor
  · intro h
    have hd : discoverLoop scans w.serial_number 0 50 = (.ok none, 50) :=
      discoverLoop_exhaust scans w.serial_number 50 0
        (fun k _ hk2 => h k (by omega))
    simp [WavePlus.connect, hmac, hd]
  · intro j hj hbefore pre d post hsplit hpre hd
    have hit : scanIteration w.serial_number (scans j) = .ok (some d.addr) := by
      rw [hsplit]
      exact scanIteration_found _ _ _ _ hpre hd
    have hloop : discoverLoop scans w.serial_number 0 50
        = (.ok (some d.addr), j - 0 + 1) :=
      discoverLoop_found scans w.serial_number d.addr 50 0 j (by omega)
        (by omega) (fun k _ hk2 => hbefore k hk2) hit
    constructor
    · simp [WavePlus.connect, hmac, hloop]
    · refine ⟨(connectPhase { w with mac_address := some d.addr } d.addr).1,
        ?_, connectPhase_mac _ _⟩
      simp [WavePlus.connect, hmac, hloop]

/-- Witness for C5: with no device ever advertising, discovery exhausts all
50 iterations and fails with device-not-found without a connection attempt;
with a matching device in the very first window, discovery stops after one
iteration. -/
theorem claim_C5_witness :
    WavePlus.connect (fun _ => []) (WavePlus.init 123)
      = (.error .deviceNotFound, 50, false)
    ∧ (WavePlus.connect
        (fun _ => [{ addr := "11:22:33:44:55:66",
                     manuData := some [52, 3, 1, 0, 0, 0] }])
        (WavePlus.init 1)).2.1 = 1 := by
  constructor
  · exact (claim_C5 _ _ rfl).1 (by intro i _ d hd; simp at hd)
  · refine ((claim_C5 _ _ rfl).2 0 (by norm_num) (by intro i hi; omega)
      [] { addr := "11:22:33:44:55:66", manuData := some [52, 3, 1, 0, 0, 0] }
      [] rfl (by intro d2 hd2; simp at hd2) (by decide)).1

/-- C7: `disconnect` is idempotent.  For every session state of the
spec lifecycle (any state satisfying `sessionInv`, i.e. the characteristic
handle is held only while connected — true of UNRESOLVED, RESOLVED and
CONNECTED alike), a first `disconnect` leaves no open connection and no
characteristic handle while retaining the (possibly resolved) address
unchanged, a second `disconnect` is a no-op, and — because the address is
retained — a subsequent `connect` performs zero discovery scan iterations
whenever the address was resolved. -/
theorem claim_C7 (w : WavePlus) (hinv : sessionInv w) :
    w.disconnect.disconnect = w.disconnect
    ∧ w.disconnect.peripheral = none
    ∧ w.disconnect.curr_val_char = none
    ∧ w.disconnect.mac_address = w.mac_address
    ∧ (∀ scans : ℕ → List Device, w.mac_address.isSome →
        (w.disconnect.connect scans).2.1 = 0) := by
  cases hp : w.peripheral with
  | none =>
    have hc : w.curr_val_char = none := by
      cases hcc : w.curr_val_char with
      | none => rfl
      | some c => exact absurd (hinv (by simp [hcc])) (by simp [hp])
    refine ⟨?_, ?_, ?_, ?_, ?_⟩ <;>
      try simp [WavePlus.disconnect, hp, hc]
    intro scans hm
    cases hma : w.mac_address with
    | none => simp [hma] at hm
    | some a => simp [WavePlus.connect, WavePlus.disconnect, hp, hma]
  | some p =>
    refine ⟨?_, ?_, ?_, ?_, ?_⟩ <;>
      try simp [WavePlus.disconnect, hp]
    intro scans hm
    cases hma : w.mac_address with
    | none => simp [hma] at hm
    | some a => simp [WavePlus.connect, WavePlus.disconnect, hp, hma]

/-- Witness for C7: a fully CONNECTED session state. -/
theorem claim_C7_witness :
    ({ serial_number := 123, mac_address := some "aa:bb",
       peripheral := some "aa:bb", curr_val_char := some () }
        : WavePlus).disconnect.disconnect
      = ({ serial_number := 123, mac_address := some "aa:bb",
           peripheral := some "aa:bb",
           curr_val_char := some () } : WavePlus).disconnect :=
  (claim_C7 _ (by intro h; simp)).1

/-- C4: for every raw record whose version byte is not 1, `Sensors.set` fails
with the unsupported-sensor-version error (a fatal `sys.exit(1)` in the
script) and produces no sensor readings; it succeeds exactly when the
version byte is 1. -/
theorem claim_C4 (s : Sensors) (r : RawData) :
    (r.version ≠ 1 → s.set r = .error .unsupportedSensorVersion)
    ∧ ((s.set r).isOk = true ↔ r.version = 1) := by
  constructor
  · intro h
    simp [Sensors.set, h]
  · by_cases h : r.version = 1 <;>
      simp [Sensors.set, h, Except.isOk, Except.toBool]

/-- Witness for C4: a version-2 record (end-to-end scenario 2) is rejected,
and the scenario-1 record (version 1) decodes successfully. -/
theorem claim_C4_witness :
    Sensors.init.set version2Record = .error .unsupportedSensorVersion
    ∧ (Sensors.init.set
        { version := 1, b1 := 0, b2 := 0, b3 := 0, w0 := 80, w1 := 0,
          w2 := 0, w3 := 10, w4 := 20, w5 := 1000, w6 := 40, w7 := 500 }).isOk
        = true :=
  ⟨(claim_C4 Sensors.init version2Record).1 (by norm_num [version2Record]),
   (claim_C4 Sensors.init _).2.mpr rfl⟩

/-- C6: the module-level argument guards reject — with a printed usage
message and exit code 1 — every `SN` that is not exactly 10 ASCII digits,
every `SAMPLE-PERIOD` that is not a plain nonnegative digit string (which
covers negative values, whose minus sign is not a digit, and non-numeric
strings), and every `MODE` whose lowercasing is neither `terminal` nor
`pipe`; when the `MODE` argument is absent it defaults to `terminal`. -/
theorem claim_C6 (prog sn sp m : String) :
    (¬(pyIsDigit sn = true ∧ sn.length = 10) →
      rejectsWithUsage (parseArgs [prog, sn, sp]) = true
      ∧ rejectsWithUsage (parseArgs [prog, sn, sp, m]) = true)
    ∧ (pyIsDigit sn = true → sn.length = 10 → pyIsDigit sp ≠ true →
      rejectsWithUsage (parseArgs [prog, sn, sp]) = true
      ∧ rejectsWithUsage (parseArgs [prog, sn, sp, m]) = true)
    ∧ (pyIsDigit sn = true → sn.length = 10 → pyIsDigit sp = true →
      pyLower m ≠ "pipe" → pyLower m ≠ "terminal" →
      rejectsWithUsage (parseArgs [prog, sn, sp, m]) = true)
    ∧ (pyIsDigit sn = true → sn.length = 10 → pyIsDigit sp = true →
      parseArgs [prog, sn, sp]
        = .ok { SERIAL_NUMBER := pyInt sn, SAMPLE_PERIOD := pyInt sp,
                MODE := "terminal" }) := by
  have hnn : ¬((pyInt sp : ℤ) < 0) := Int.not_lt.mpr (Int.natCast_nonneg _)
  refine ⟨?_, ?_, ?_, ?_⟩
  · intro h
    constructor <;> simp [parseArgs, h, rejectsWithUsage]
  · intro h1 h2 h3
    constructor <;> simp [parseArgs, h1, h2, h3, rejectsWithUsage]
  · intro h1 h2 h3 h4 h5
    simp [parseArgs, h1, h2, h3, h4, h5, hnn, rejectsWithUsage]
  · intro h1 h2 h3
    simp [parseArgs, h1, h2, h3, hnn]

/-- Witness for C6: a short SN, a negative SAMPLE-PERIOD, an unknown MODE
(each rejected with exit code 1 and a usage message), and a fully valid
invocation without MODE defaulting to `terminal`. -/
theorem claim_C6_witness :
    rejectsWithUsage (parseArgs ["read_waveplus.py", "123", "60", "pipe"]) = true
    ∧ rejectsWithUsage (parseArgs ["read_waveplus.py", "1234567890", "-5"]) = true
    ∧ rejectsWithUsage
        (parseArgs ["read_waveplus.py", "1234567890", "60", "fancy"]) = true
    ∧ parseArgs ["read_waveplus.py", "1234567890", "60"]
        = .ok { SERIAL_NUMBER := 1234567890, SAMPLE_PERIOD := 60,
                MODE := "terminal" } := by
  refine ⟨((claim_C6 "read_waveplus.py" "123" "60" "pipe").1 (by decide)).2,
    ((claim_C6 "read_waveplus.py" "1234567890" "-5" "x").2.1
      (by decide) (by decide) (by decide)).1,
    (claim_C6 "read_waveplus.py" "1234567890" "60" "fancy").2.2.1
      (by decide) (by decide) (by decide) (by decide) (by decide),
    ((claim_C6 "read_waveplus.py" "1234567890" "60" "x").2.2.2
      (by decide) (by decide) (by decide)).trans (by decide)⟩

/-- C10: the MODE argument is lowercased before validation, so any case
variant of `pipe` or `terminal` is accepted and the program behaves as the
lowercased mode. -/
theorem claim_C10 (prog sn sp m : String)
    (hsn1 : pyIsDigit sn = true) (hsn2 : sn.length = 10)
    (hsp : pyIsDigit sp = true)
    (hm : pyLower m = "pipe" ∨ pyLower m = "terminal") :
    parseArgs [prog, sn, sp, m]
      = .ok { SERIAL_NUMBER := pyInt sn, SAMPLE_PERIOD := pyInt sp,
              MODE := pyLower m } := by
  have hnn : ¬((pyInt sp : ℤ) < 0) := Int.not_lt.mpr (Int.natCast_nonneg _)
  rcases hm with hm | hm <;> simp [parseArgs, hsn1, hsn2, hsp, hnn, hm]

/-- Witness for C10: the uppercase MODE argument `PIPE` is accepted and
behaves as `pipe`. -/
theorem claim_C10_witness :
    parseArgs ["read_waveplus.py", "1234567890", "60", "PIPE"]
      = .ok { SERIAL_NUMBER := 1234567890, SAMPLE_PERIOD := 60,
              MODE := "pipe" } :=
  (claim_C10 "read_waveplus.py" "1234567890" "60" "PIPE"
    (by decide) (by decide) (by decide) (Or.inl (by decide))).trans (by decide)

end ReadWaveplus
